import Mathlib

/-! Verification development for the vehicle_tracking_system repository.

The core data model (models.py), the inventory/sales operations
(inventory_manager.py, services/stock_service.py, services/sales_service.py)
and the S08 fixed-width feed decoder (services/email_import_service.py) are
shallowly embedded as pure Lean functions over an explicit database state.
Each SQLAlchemy session transaction is modelled as a pure state transition:
a committed operation returns the new state, a rolled-back operation returns
the original state (`Except.error` carries no state, meaning rollback).
Dates and datetimes are modelled as natural numbers; `datetime.now(...)` and
`date.today()` become explicit parameters of the operations that read them. -/

namespace VTS

/-- Transaction type constants, from models.TransactionType. -/
def TransactionType.INWARD_OEM : String := "HMSI"

/-- Stock arriving from another branch, from models.TransactionType. -/
def TransactionType.INWARD_TRANSFER : String := "INWARD"

/-- Stock leaving for another branch, from models.TransactionType. -/
def TransactionType.OUTWARD_TRANSFER : String := "OUTWARD"

/-- Sale transaction type, from models.TransactionType. -/
def TransactionType.SALE : String := "Sale"

/-- One models.VehicleMaster row, restricted to the columns the core
operations read or write.  `sale_id` is the nullable FK to sales_records. -/
structure VehicleMaster where
  chassis_no : String
  engine_no : Option String
  load_reference_number : Option String
  model : String
  variant : String
  color : String
  status : String
  date_received : Nat
  current_branch_id : String
  sale_id : Option Nat
  dc_number : Option String
  deriving DecidableEq

/-- One models.SalesRecord row, restricted to the columns the lifecycle
operations read or write. -/
structure SalesRecord where
  id : Nat
  Branch_ID : String
  Model : String
  Variant : String
  Paint_Color : String
  fulfillment_status : String
  engine_no : Option String
  chassis_no : Option String
  pdi_assigned_to : Option String
  pdi_completion_date : Option Nat
  is_insurance_done : Bool
  is_tr_done : Bool
  has_double_tax : Bool
  has_dues : Bool
  deriving DecidableEq

/-- One models.InventoryTransaction row (the append-only movement ledger). -/
structure InventoryTransaction where
  Date : Nat
  Transaction_Type : String
  Source_External : Option String
  From_Branch_ID : Option String
  Current_Branch_ID : String
  To_Branch_ID : Option String
  Model : String
  Variant : String
  Color : String
  Quantity : Nat
  Load_Number : Option String
  Remarks : String
  deriving DecidableEq

/-- The relational store visible to the core operations: the three tables
the claims are about.  Row order stands for insertion order. -/
structure DB where
  vehicles : List VehicleMaster
  sales : List SalesRecord
  txns : List InventoryTransaction
  deriving DecidableEq

/-- The empty database. -/
def dbEmpty : DB := ⟨[], [], []⟩

/-- Mutating the single ORM object returned by `.first()` corresponds to
rewriting the first list element satisfying the predicate. -/
def updateFirst (p : α → Bool) (f : α → α) : List α → List α
  | [] => []
  | x :: xs => if p x then f x :: xs else x :: updateFirst p f xs

/-- Python repr of a nullable integer, as interpolated into f-strings. -/
def optIdRepr : Option Nat → String
  | none => "None"
  | some n => toString n

/-! ## OEM feed decoder (services/email_import_service.py)

A raw feed line is modelled as a `List Char`; `line[a:b].strip()` becomes
`sliceStrip line a b`.  Python `str.strip()` removes ASCII whitespace, which
`Char.isWhitespace` covers for this ASCII fixed-width format. -/

/-- Python slice `l[a:b]` on a string, as a character list. -/
def slice (l : List Char) (a b : Nat) : List Char := (l.drop a).take (b - a)

/-- Python `str.strip()`: drop leading and trailing whitespace. -/
def pyStrip (l : List Char) : List Char :=
  ((l.dropWhile Char.isWhitespace).reverse.dropWhile Char.isWhitespace).reverse

/-- `line[a:b].strip()` as a `String`. -/
def sliceStrip (l : List Char) (a b : Nat) : String := String.mk (pyStrip (slice l a b))

/-- One decoded vehicle record (the dict built by `_parse_s08_content`). -/
structure FeedRecord where
  source_account : String
  load_reference : String
  chassis_no : String
  engine_no : String
  color : String
  model : String
  variant : String
  deriving DecidableEq

/-- One iteration of the line loop in `_parse_s08_content`
(services/email_import_service.py lines 155-179).  The decoder map is the
ProductMapping lookup dict; `color_map` is the optional color translation
dict, `none` standing for Python `None` (and an empty list behaving like an
empty, falsy dict, which the lookup fallback reproduces).  The source wraps
the field extraction in try/except, but string slicing and dict lookups on a
line that passed the length-180 guard cannot raise, so no skip arises there. -/
def parse_s08_line (source_name : String)
    (decoder_map : List ((String × String) × (String × String)))
    (color_map : Option (List (String × String))) (line : List Char) : Option FeedRecord :=
  if line.length < 180 then none
  else if line.get? 25 != some 'B' then none
  else
    some { source_account := source_name
           load_reference := sliceStrip line 84 97
           chassis_no := sliceStrip line 113 130
           engine_no := sliceStrip line 173 186
           color :=
             match color_map with
             | none => sliceStrip line 45 60
             | some cm => (cm.lookup (sliceStrip line 45 60)).getD (sliceStrip line 45 60)
           model := ((decoder_map.lookup (sliceStrip line 27 38, sliceStrip line 38 45)).getD
             (sliceStrip line 27 38, sliceStrip line 38 45)).1
           variant := ((decoder_map.lookup (sliceStrip line 27 38, sliceStrip line 38 45)).getD
             (sliceStrip line 27 38, sliceStrip line 38 45)).2 }

/-- `_parse_s08_content`: decode every qualifying line of the feed. -/
def parse_s08_content (source_name : String)
    (decoder_map : List ((String × String) × (String × String)))
    (color_map : Option (List (String × String))) (content : List (List Char)) : List FeedRecord :=
  content.filterMap (parse_s08_line source_name decoder_map color_map)

/-- `_peek_load_ref`: the load reference of the first qualifying line. -/
def peek_load_ref (content : List (List Char)) : Option String :=
  content.findSome? fun line =>
    if line.length < 180 then none
    else if line.get? 25 != some 'B' then none
    else some (sliceStrip line 84 97)

/-! ## Sale fulfillment workflow (inventory_manager.py)

Both UI entry points that complete a PDI (inventory_app.py line 410 and
ui/mechanic_tasks.py line 68) call inventory_manager.complete_pdi, which is
the version performing the model/variant/color validation; the copy in
services/sales_service.py is not called anywhere in the repository.  The
functions below embed the inventory_manager versions. -/

/-- The mismatch error built at inventory_manager.py line 631, listing the
requested (sale) values and the scanned (vehicle) values. -/
def mismatch_message (record : SalesRecord) (vehicle : VehicleMaster) : String :=
  "Mismatch: Customer wants \x27" ++ record.Model ++ "/" ++ record.Variant ++ "/" ++
    record.Paint_Color ++ "\x27, but you scanned a \x27" ++ vehicle.model ++ "/" ++
    vehicle.variant ++ "/" ++ vehicle.color ++ "\x27."

/-- inventory_manager.complete_pdi (lines 600-650).  `now` stands for
`datetime.now(IST_TIMEZONE)`.  The source's line 641 assigns
`vehicle.engine_no` in both arms of its conditional, so the `engine_no`
argument never reaches the record; `dc_number` is accepted and unused by the
source as well, and is omitted here. -/
def complete_pdi (db : DB) (sale_id : Nat) (chassis_no : String)
    (engine_no : Option String) (now : Nat) : (Bool × String) × DB :=
  match db.sales.find? (fun r => r.id == sale_id) with
  | none => ((false, "Error: Sales Record not found."), db)
  | some record =>
    match db.vehicles.find? (fun v => v.chassis_no == chassis_no) with
    | none =>
      ((false, "Error: Chassis No. \x27" ++ chassis_no ++
        "\x27 not found in Vehicle Master. Please scan a valid vehicle."), db)
    | some vehicle =>
      if vehicle.status != "In Stock" then
        if vehicle.sale_id == some sale_id then
          ((true, "This vehicle is already allotted to this sale. PDI marked complete."),
           { db with sales := (updateFirst (fun r => r.id == sale_id)
               (fun r => { r with fulfillment_status := "PDI Complete",
                                  pdi_completion_date := some now }) db.sales) })
        else
          ((false, "Error: Vehicle is already \x27" ++ vehicle.status ++
            "\x27 and linked to another sale (ID: " ++ optIdRepr vehicle.sale_id ++ ")."), db)
      else if vehicle.model.toUpper != record.Model.toUpper
          || vehicle.variant.toUpper != record.Variant.toUpper
          || vehicle.color != record.Paint_Color then
        ((false, mismatch_message record vehicle), db)
      else
        ((true, "Success: Vehicle linked and PDI marked as complete!"),
         { db with
             vehicles := (updateFirst (fun v => v.chassis_no == chassis_no)
               (fun v => { v with status := "Allotted", sale_id := some sale_id }) db.vehicles),
             sales := (updateFirst (fun r => r.id == sale_id)
               (fun r => { r with chassis_no := some vehicle.chassis_no,
                                  engine_no := vehicle.engine_no,
                                  fulfillment_status := "PDI Complete",
                                  pdi_completion_date := some now }) db.sales) })

/-- inventory_manager.assign_pdi_mechanic (lines 587-597): if the record
exists, set the mechanic and move to PDI In Progress; there is no check of
the current fulfillment status. -/
def assign_pdi_mechanic (db : DB) (sale_id : Nat) (mechanic_name : String) : DB :=
  match db.sales.find? (fun r => r.id == sale_id) with
  | none => db
  | some _ =>
    { db with sales := (updateFirst (fun r => r.id == sale_id)
        (fun r => { r with pdi_assigned_to := some mechanic_name,
                           fulfillment_status := "PDI In Progress" }) db.sales) }

/-- The updates dictionary taken by update_insurance_tr_status.  Its
docstring states it updates the Insurance, TR, Dues, and Tax flags; a `none`
field stands for a key absent from the dict (the setattr loop only touches
present keys). -/
structure FlagUpdates where
  is_insurance_done : Option Bool
  is_tr_done : Option Bool
  has_double_tax : Option Bool
  has_dues : Option Bool
  deriving DecidableEq

/-- The setattr loop of update_insurance_tr_status (lines 658-660): apply
every present key of the updates dict to the record. -/
def applyFlagUpdates (r : SalesRecord) (u : FlagUpdates) : SalesRecord :=
  { r with
      is_insurance_done := u.is_insurance_done.getD r.is_insurance_done,
      is_tr_done := u.is_tr_done.getD r.is_tr_done,
      has_double_tax := u.has_double_tax.getD r.has_double_tax,
      has_dues := u.has_dues.getD r.has_dues }

/-- inventory_manager.update_insurance_tr_status (lines 652-675): apply the
updates, then, from the updated record: is_tr_done forces TR Done (vehicle
untouched); otherwise is_insurance_done forces Insurance Done and marks the
vehicle linked to this sale as Sold. -/
def update_insurance_tr_status (db : DB) (sale_id : Nat) (updates : FlagUpdates) : DB :=
  match db.sales.find? (fun r => r.id == sale_id) with
  | none => db
  | some record0 =>
    if (applyFlagUpdates record0 updates).is_tr_done then
      { db with sales := (updateFirst (fun r => r.id == sale_id)
          (fun r => { applyFlagUpdates r updates with fulfillment_status := "TR Done" }) db.sales) }
    else if (applyFlagUpdates record0 updates).is_insurance_done then
      { db with
          sales := (updateFirst (fun r => r.id == sale_id)
            (fun r => { applyFlagUpdates r updates with
                          fulfillment_status := "Insurance Done" }) db.sales),
          vehicles := (updateFirst (fun v => v.sale_id == some sale_id)
            (fun v => { v with status := "Sold" }) db.vehicles) }
    else
      { db with sales := (updateFirst (fun r => r.id == sale_id)
          (fun r => applyFlagUpdates r updates) db.sales) }

/-! ## Stock operations (services/stock_service.py)

An `Except.error` result models an exception propagating after
`db.rollback()`: the store is left exactly as before the call. -/

/-- One item of a create-inbound batch (the dicts fed to
log_bulk_inward_master). -/
structure InwardItem where
  chassis_no : String
  engine_no : Option String
  load_reference : Option String
  model : String
  variant : String
  color : String
  deriving DecidableEq

/-- The VehicleMaster row built for one inbound item
(stock_service.py lines 160-170). -/
def mkInwardVehicle (current_branch_id load_no : String) (date_val : Nat)
    (initial_status : String) (item : InwardItem) : VehicleMaster :=
  { chassis_no := item.chassis_no
    engine_no := item.engine_no
    load_reference_number := some (item.load_reference.getD load_no)
    model := item.model
    variant := item.variant
    color := item.color
    status := initial_status
    date_received := date_val
    current_branch_id := current_branch_id
    sale_id := none
    dc_number := none }

/-- The inward transaction logged for one In Stock inbound item
(stock_service.py lines 176-181). -/
def mkInwardTxn (current_branch_id source load_no : String) (date_val : Nat)
    (remarks : String) (item : InwardItem) : InventoryTransaction :=
  { Date := date_val
    Transaction_Type := TransactionType.INWARD_OEM
    Source_External := some source
    From_Branch_ID := none
    Current_Branch_ID := current_branch_id
    To_Branch_ID := none
    Model := item.model
    Variant := item.variant
    Color := item.color
    Quantity := 1
    Load_Number := some (item.load_reference.getD load_no)
    Remarks := remarks }

/-- stock_service.log_bulk_inward_master (lines 150-186).  The per-item adds
all sit in one session committed at the end; the commit enforces the UNIQUE
constraint on vehicle_master.chassis_no (models.py line 258), and a
violation rolls the whole batch back, so the error case returns no state. -/
def log_bulk_inward_master (db : DB) (current_branch_id source load_no : String)
    (date_val : Nat) (remarks : String) (vehicle_batch : List InwardItem)
    (initial_status : String) : Except String DB :=
  if ((db.vehicles ++ vehicle_batch.map
        (mkInwardVehicle current_branch_id load_no date_val initial_status)).map
        VehicleMaster.chassis_no).Nodup then
    Except.ok
      { db with
          vehicles := db.vehicles ++ vehicle_batch.map
            (mkInwardVehicle current_branch_id load_no date_val initial_status),
          txns := db.txns ++
            (if initial_status == "In Stock" then
              vehicle_batch.map (mkInwardTxn current_branch_id source load_no date_val remarks)
            else []) }
  else
    Except.error "IntegrityError: UNIQUE constraint failed: vehicle_master.chassis_no"

/-- The selection predicate shared by the lookup and the mutation inside
stock_service.log_bulk_transfer_master (lines 193-197). -/
def transferMatch (from_branch_id chassis_no : String) (v : VehicleMaster) : Bool :=
  v.chassis_no == chassis_no && v.current_branch_id == from_branch_id && v.status == "In Stock"

/-- The outward half of the double-entry pair written by
log_bulk_transfer_master (stock_service.py lines 206-211). -/
def transferOutTxn (from_branch_id to_branch_id : String) (date_val : Nat)
    (remarks : String) (vehicle : VehicleMaster) : InventoryTransaction :=
  { Date := date_val
    Transaction_Type := TransactionType.OUTWARD_TRANSFER
    Source_External := none
    From_Branch_ID := none
    Current_Branch_ID := from_branch_id
    To_Branch_ID := some to_branch_id
    Model := vehicle.model
    Variant := vehicle.variant
    Color := vehicle.color
    Quantity := 1
    Load_Number := none
    Remarks := "Transfer OUT to " ++ to_branch_id ++ ". " ++ remarks }

/-- The inward half of the double-entry pair written by
log_bulk_transfer_master (stock_service.py lines 212-217). -/
def transferInTxn (from_branch_id to_branch_id : String) (date_val : Nat)
    (remarks : String) (vehicle : VehicleMaster) : InventoryTransaction :=
  { Date := date_val
    Transaction_Type := TransactionType.INWARD_TRANSFER
    Source_External := none
    From_Branch_ID := some from_branch_id
    Current_Branch_ID := to_branch_id
    To_Branch_ID := none
    Model := vehicle.model
    Variant := vehicle.variant
    Color := vehicle.color
    Quantity := 1
    Load_Number := none
    Remarks := "Transfer IN from " ++ from_branch_id ++ ". " ++ remarks }

/-- stock_service.log_bulk_transfer_master (lines 189-221): sequentially
move each chassis and append the outward/inward transaction pair; any
failure rolls the whole batch back. -/
def log_bulk_transfer_master (db : DB) (from_branch_id to_branch_id : String)
    (date_val : Nat) (remarks : String) : List String → Except String DB
  | [] => Except.ok db
  | chassis_no :: rest =>
    match db.vehicles.find? (transferMatch from_branch_id chassis_no) with
    | none =>
      Except.error ("Vehicle " ++ chassis_no ++ " not found/available at " ++ from_branch_id ++ ".")
    | some vehicle =>
      log_bulk_transfer_master
        { db with
            vehicles := (updateFirst (transferMatch from_branch_id chassis_no)
              (fun v => { v with current_branch_id := to_branch_id,
                                 dc_number := some remarks }) db.vehicles),
            txns := db.txns ++ [transferOutTxn from_branch_id to_branch_id date_val remarks vehicle,
                                transferInTxn from_branch_id to_branch_id date_val remarks vehicle] }
        from_branch_id to_branch_id date_val remarks rest

/-- The In Transit selection of stock_service.receive_load (lines 317-321). -/
def receiveMatch (branch_id load_reference : String) (v : VehicleMaster) : Bool :=
  v.current_branch_id == branch_id && v.load_reference_number == some load_reference
    && v.status == "In Transit"

/-- The inward transaction logged for one received vehicle
(stock_service.py lines 334-345). -/
def receiveTxn (branch_id load_reference : String) (today : Nat)
    (v : VehicleMaster) : InventoryTransaction :=
  { Date := today
    Transaction_Type := TransactionType.INWARD_OEM
    Source_External := some "HMSI (Transit Received)"
    From_Branch_ID := none
    Current_Branch_ID := branch_id
    To_Branch_ID := none
    Model := v.model
    Variant := v.variant
    Color := v.color
    Quantity := 1
    Load_Number := some load_reference
    Remarks := "Received Load " ++ load_reference }

/-- stock_service.receive_load (lines 310-351).  `today` stands for
`date.today()`, stamped over `date_received` of every received vehicle. -/
def receive_load (db : DB) (branch_id load_reference : String) (today : Nat) :
    (Bool × String) × DB :=
  if (db.vehicles.filter (receiveMatch branch_id load_reference)).isEmpty then
    ((false, "No \x27In Transit\x27 vehicles found for this Load ID."), db)
  else
    ((true, "Successfully received " ++
      toString (db.vehicles.filter (receiveMatch branch_id load_reference)).length ++
      " vehicles from Load " ++ load_reference ++ "."),
     { db with
         vehicles := db.vehicles.map fun v =>
           if receiveMatch branch_id load_reference v then
             { v with status := "In Stock", date_received := today }
           else v,
         txns := db.txns ++ (db.vehicles.filter (receiveMatch branch_id load_reference)).map
           (receiveTxn branch_id load_reference today) })

/-- The SALE transaction written for one manually sold vehicle
(stock_service.py lines 382-392). -/
def manualSaleTxn (sale_date : Nat) (remarks : String)
    (vehicle : VehicleMaster) : InventoryTransaction :=
  { Date := sale_date
    Transaction_Type := TransactionType.SALE
    Source_External := none
    From_Branch_ID := none
    Current_Branch_ID := vehicle.current_branch_id
    To_Branch_ID := none
    Model := vehicle.model
    Variant := vehicle.variant
    Color := vehicle.color
    Quantity := 1
    Load_Number := none
    Remarks := "Manual Sub-Branch Sale. " ++ remarks }

/-- The loop body of stock_service.log_bulk_manual_sub_branch_sale
(lines 363-392), threading the session state chassis by chassis. -/
def manualSaleLoop (db : DB) (sale_date : Nat) (remarks : String) :
    List String → Except String DB
  | [] => Except.ok db
  | chassis_no :: rest =>
    match db.vehicles.find? (fun v => v.chassis_no == chassis_no) with
    | none => Except.error ("Vehicle " ++ chassis_no ++ " not found.")
    | some vehicle =>
      if vehicle.status == "Sold" then
        Except.error ("Vehicle " ++ chassis_no ++ " is already marked as \x27Sold\x27.")
      else
        manualSaleLoop
          { db with
              vehicles := (updateFirst (fun v => v.chassis_no == chassis_no)
                (fun v => { v with status := "Sold" }) db.vehicles),
              txns := db.txns ++ [manualSaleTxn sale_date remarks vehicle] }
          sale_date remarks rest

/-- stock_service.log_bulk_manual_sub_branch_sale (lines 354-401): marks
each listed vehicle Sold (without touching sale_id) in one atomic batch. -/
def log_bulk_manual_sub_branch_sale (db : DB) (chassis_list : List String)
    (sale_date : Nat) (remarks : String) : Except String DB :=
  if chassis_list.isEmpty then Except.error "No vehicles in the batch to process."
  else manualSaleLoop db sale_date remarks chassis_list

/-! ## Bulk stock correction (services/stock_service.py lines 224-298) -/

/-- One row of a correction batch; `none` fields stand for keys absent from
the CSV-derived dict (`item.get`). -/
structure CorrItem where
  chassis_no : Option String
  current_branch_id : Option String
  deriving DecidableEq

/-- The running state of the correction loop: the session plus the counters
and log the function returns. -/
structure CorrectState where
  db : DB
  update_count : Nat
  skip_count : Nat
  error_log : List String
  deriving DecidableEq

/-- The recent-transfer guard of bulk_correct_stock (lines 252-261): any
inward or outward transfer dated on or after the cutoff that matches the
vehicle's current model, variant and branch. -/
def recentTransferMatch (cutoff_date : Nat) (vehicle : VehicleMaster)
    (t : InventoryTransaction) : Bool :=
  decide (cutoff_date ≤ t.Date)
    && (t.Transaction_Type == TransactionType.INWARD_TRANSFER
        || t.Transaction_Type == TransactionType.OUTWARD_TRANSFER)
    && t.Current_Branch_ID == vehicle.current_branch_id
    && t.Model == vehicle.model
    && t.Variant == vehicle.variant

/-- The STOCK CORRECTION audit row added for one applied correction
(stock_service.py lines 281-291); `new_branch` is the vehicle's location
after the update and `original_branch_id` the one before. -/
def correctionTxn (correction_date : Nat) (new_branch original_branch_id : String)
    (vehicle : VehicleMaster) : InventoryTransaction :=
  { Date := correction_date
    Transaction_Type := "STOCK CORRECTION"
    Source_External := none
    From_Branch_ID := some original_branch_id
    Current_Branch_ID := new_branch
    To_Branch_ID := none
    Model := vehicle.model
    Variant := vehicle.variant
    Color := vehicle.color
    Quantity := 1
    Load_Number := none
    Remarks := "Data Correction: Updated model/variant/branch from CSV. Original Branch: " ++
      original_branch_id ++ "." }

/-- One iteration of the bulk_correct_stock loop (lines 234-291).  A missing
or empty chassis value is falsy in Python, hence the two skip cases. -/
def correctStep (correction_date cutoff_date : Nat) (st : CorrectState)
    (item : CorrItem) : CorrectState :=
  match item.chassis_no with
  | none => { st with error_log := st.error_log ++ ["Skipped row: Missing chassis_no."] }
  | some chassis_no =>
    if chassis_no.isEmpty then
      { st with error_log := st.error_log ++ ["Skipped row: Missing chassis_no."] }
    else
      match st.db.vehicles.find? (fun v => v.chassis_no == chassis_no) with
      | none =>
        { st with error_log := st.error_log ++
            ["Error: Chassis " ++ chassis_no ++ " not found in VehicleMaster."] }
      | some vehicle =>
        match st.db.txns.find? (recentTransferMatch cutoff_date vehicle) with
        | some recent_transfer =>
          { st with
              skip_count := st.skip_count + 1,
              error_log := st.error_log ++
                ["Skipped Chassis " ++ chassis_no ++ ": Found recent transfer (" ++
                  recent_transfer.Transaction_Type ++ ") on " ++
                  toString recent_transfer.Date ++ "."] }
        | none =>
          if vehicle.status == "Sold" || vehicle.status == "Allotted" then
            { st with error_log := st.error_log ++
                ["Skipped Chassis " ++ chassis_no ++ ": Status is \x27" ++ vehicle.status ++
                  "\x27. Correction not allowed."] }
          else
            { db :=
                { st.db with
                    vehicles := (updateFirst (fun v => v.chassis_no == chassis_no)
                      (fun v => { v with current_branch_id :=
                        item.current_branch_id.getD vehicle.current_branch_id }) st.db.vehicles),
                    txns := st.db.txns ++
                      [correctionTxn correction_date
                        (item.current_branch_id.getD vehicle.current_branch_id)
                        vehicle.current_branch_id vehicle] }
              update_count := st.update_count + 1
              skip_count := st.skip_count
              error_log := st.error_log }

/-- The tuple returned by bulk_correct_stock.  The source returns
`(True, message, error_log)` where the message interpolates exactly
`update_count`, `skip_count` and `len(error_log)`; the counts are kept
here as fields. -/
structure CorrectResult where
  ok : Bool
  update_count : Nat
  skip_count : Nat
  error_log : List String
  deriving DecidableEq

/-- stock_service.bulk_correct_stock (lines 224-298): best-effort per-row
loop, one final commit, always reporting success (no exception can arise in
the embedded fragment). -/
def bulk_correct_stock (db : DB) (update_batch : List CorrItem)
    (correction_date cutoff_date : Nat) : CorrectResult × DB :=
  let final := update_batch.foldl (correctStep correction_date cutoff_date)
    { db := db, update_count := 0, skip_count := 0, error_log := [] }
  ({ ok := true, update_count := final.update_count, skip_count := final.skip_count,
     error_log := final.error_log }, final.db)

/-! ## The core operations as a transition system

Every write operation the spec names is wrapped as an `Op`; applying an op
that fails (rolls back) leaves the state unchanged, exactly as the sources'
`db.rollback()` does.  Sales records themselves are created by the sales
application; `newSale` embeds that insertion with the schema defaults of
models.SalesRecord (fulfillment_status `PDI Pending`, NULL chassis/engine and
PDI fields, all progress flags False). -/

/-- The creation-time fields of a sales record; the lifecycle columns take
their models.py defaults. -/
structure NewSaleInfo where
  id : Nat
  Branch_ID : String
  Model : String
  Variant : String
  Paint_Color : String
  deriving DecidableEq

/-- A freshly inserted sales_records row with models.py column defaults. -/
def mkSalesRecord (i : NewSaleInfo) : SalesRecord :=
  { id := i.id
    Branch_ID := i.Branch_ID
    Model := i.Model
    Variant := i.Variant
    Paint_Color := i.Paint_Color
    fulfillment_status := "PDI Pending"
    engine_no := none
    chassis_no := none
    pdi_assigned_to := none
    pdi_completion_date := none
    is_insurance_done := false
    is_tr_done := false
    has_double_tax := false
    has_dues := false }

/-- One invocation of a core write operation.  `inbound`'s `in_transit`
flag selects between the two initial statuses the repository ever passes to
log_bulk_inward_master (`In Transit` from the S08 import path, the default
`In Stock` from the CSV path). -/
inductive Op where
  | inbound (branch source load_no : String) (date_val : Nat) (remarks : String)
      (batch : List InwardItem) (in_transit : Bool)
  | receiveLoad (branch load : String) (today : Nat)
  | transfer (from_b to_b : String) (date_val : Nat) (remarks : String) (chassis : List String)
  | completePdi (sale_id : Nat) (chassis : String) (engine : Option String) (now : Nat)
  | assignMechanic (sale_id : Nat) (mechanic : String)
  | updateFlags (sale_id : Nat) (u : FlagUpdates)
  | manualSale (chassis : List String) (sale_date : Nat) (remarks : String)
  | correctStock (batch : List CorrItem) (correction_date cutoff_date : Nat)
  | newSale (i : NewSaleInfo)
  deriving DecidableEq

/-- Apply one operation; a rolled-back operation leaves the store as it
was. -/
def applyOp (db : DB) : Op → DB
  | .inbound b s l d r batch it =>
    match log_bulk_inward_master db b s l d r batch (if it then "In Transit" else "In Stock") with
    | .ok db' => db'
    | .error _ => db
  | .receiveLoad b l t => (receive_load db b l t).2
  | .transfer f t d r cs =>
    match log_bulk_transfer_master db f t d r cs with
    | .ok db' => db'
    | .error _ => db
  | .completePdi s c e n => (complete_pdi db s c e n).2
  | .assignMechanic s m => assign_pdi_mechanic db s m
  | .updateFlags s u => update_insurance_tr_status db s u
  | .manualSale cs d r =>
    match log_bulk_manual_sub_branch_sale db cs d r with
    | .ok db' => db'
    | .error _ => db
  | .correctStock batch cd cut => (bulk_correct_stock db batch cd cut).2
  | .newSale i => { db with sales := db.sales ++ [mkSalesRecord i] }

/-- Apply a sequence of operations in order. -/
def applyOps (db : DB) (ops : List Op) : DB := ops.foldl applyOp db

/-! ## Invariant definitions -/

/-- The sale-link/status coupling of one vehicle that actually holds: a
linked vehicle is Allotted or Sold, and an Allotted vehicle is linked. -/
def VehicleLinkOk (v : VehicleMaster) : Prop :=
  (v.sale_id ≠ none → v.status = "Allotted" ∨ v.status = "Sold") ∧
  (v.status = "Allotted" → v.sale_id ≠ none)

/-- The per-vehicle link condition, over the whole store. -/
def LinkInvariant (db : DB) : Prop := ∀ v ∈ db.vehicles, VehicleLinkOk v

/-- The claim's two-way version: status Allotted-or-Sold iff sale_id is
non-NULL. -/
def SaleLinkIff (db : DB) : Prop :=
  ∀ v ∈ db.vehicles, ((v.status = "Allotted" ∨ v.status = "Sold") ↔ v.sale_id ≠ none)

/-- The five fulfillment statuses, in workflow order. -/
def fulfillmentStatuses : List String :=
  ["PDI Pending", "PDI In Progress", "PDI Complete", "Insurance Done", "TR Done"]

/-- Position of a status in the forward order (5 for anything else). -/
def statusRank (s : String) : Nat :=
  if s == "PDI Pending" then 0
  else if s == "PDI In Progress" then 1
  else if s == "PDI Complete" then 2
  else if s == "Insurance Done" then 3
  else if s == "TR Done" then 4
  else 5

/-- Every sales record carries one of the five enumerated statuses. -/
def StatusEnumInvariant (db : DB) : Prop :=
  ∀ r ∈ db.sales, r.fulfillment_status ∈ fulfillmentStatuses

/-! ## Helper lemmas about `updateFirst` -/

/-- Every element of an updated list is either an image of an original
element or an untouched original element. -/
theorem mem_updateFirst {α} {p : α → Bool} {f : α → α} {l : List α} {y : α}
    (hy : y ∈ updateFirst p f l) : (∃ x ∈ l, y = f x) ∨ y ∈ l := by
  induction l with
  | nil => simp [updateFirst] at hy
  | cons x xs ih =>
    rw [updateFirst] at hy
    by_cases hp : p x
    · simp only [hp, if_pos] at hy
      rcases List.mem_cons.mp hy with h | h
      · exact Or.inl ⟨x, List.mem_cons_self x xs, h⟩
      · exact Or.inr (List.mem_cons_of_mem x h)
    · simp only [hp, if_neg, Bool.false_eq_true] at hy
      rcases List.mem_cons.mp hy with h | h
      · exact Or.inr (by simp [h])
      · rcases ih h with ⟨x', hx', hyx⟩ | h'
        · exact Or.inl ⟨x', List.mem_cons_of_mem x hx', hyx⟩
        · exact Or.inr (List.mem_cons_of_mem x h')

/-- A pointwise property survives `updateFirst` when it holds of the
originals and of the images. -/
theorem updateFirst_pres {α} {P : α → Prop} {p : α → Bool} {f : α → α} {l : List α}
    (hf : ∀ x ∈ l, P (f x)) (hl : ∀ x ∈ l, P x) : ∀ y ∈ updateFirst p f l, P y := by
  intro y hy
  rcases mem_updateFirst hy with ⟨x, hx, rfl⟩ | h
  · exact hf x hx
  · exact hl y h

/-- An existential witness survives `updateFirst` when the property is
preserved by the update function. -/
theorem exists_updateFirst {α} {P : α → Prop} {p : α → Bool} {f : α → α} {l : List α}
    (hf : ∀ x, P x → P (f x)) (h : ∃ v ∈ l, P v) : ∃ v ∈ updateFirst p f l, P v := by
  induction l with
  | nil => simp at h
  | cons x xs ih =>
    rcases h with ⟨v, hv, hPv⟩
    rw [updateFirst]
    by_cases hp : p x
    · simp only [hp, if_pos]
      rcases List.mem_cons.mp hv with rfl | hvxs
      · exact ⟨f v, List.mem_cons_self _ _, hf v hPv⟩
      · exact ⟨v, List.mem_cons_of_mem _ hvxs, hPv⟩
    · simp only [hp, if_neg, Bool.false_eq_true]
      rcases List.mem_cons.mp hv with rfl | hvxs
      · exact ⟨v, List.mem_cons_self _ _, hPv⟩
      · rcases ih ⟨v, hvxs, hPv⟩ with ⟨w, hw, hPw⟩
        exact ⟨w, List.mem_cons_of_mem _ hw, hPw⟩

/-- The row found by `.first()` appears, updated, in the rewritten list. -/
theorem mem_updateFirst_of_find {α} {p : α → Bool} {f : α → α} {l : List α} {x : α}
    (h : l.find? p = some x) : f x ∈ updateFirst p f l := by
  induction l with
  | nil => simp at h
  | cons a as ih =>
    by_cases hp : p a
    · rw [List.find?_cons_of_pos _ hp] at h
      injection h with h
      subst h
      rw [updateFirst]
      simp [hp]
    · rw [List.find?_cons_of_neg _ hp] at h
      rw [updateFirst]
      simp only [hp, if_neg, Bool.false_eq_true]
      exact List.mem_cons_of_mem _ (ih h)

/-! ## Preservation of the sale-link coupling, operation by operation -/

/-- A freshly inserted inbound vehicle satisfies the link coupling for
either initial status the repository uses. -/
theorem vehicleLinkOk_mkInwardVehicle (b l : String) (d : Nat) (st : String)
    (hst : st = "In Transit" ∨ st = "In Stock") (item : InwardItem) :
    VehicleLinkOk (mkInwardVehicle b l d st item) := by
  constructor
  · intro hne
    exact absurd rfl hne
  · intro hA
    simp only [mkInwardVehicle] at hA
    rcases hst with rfl | rfl <;> exact absurd hA (by decide)

/-- Inbound logging preserves the link coupling. -/
theorem linkInv_inbound (db : DB) (b s l : String) (d : Nat) (r : String)
    (batch : List InwardItem) (st : String) (hst : st = "In Transit" ∨ st = "In Stock")
    (h : LinkInvariant db) (db' : DB)
    (hok : log_bulk_inward_master db b s l d r batch st = .ok db') :
    LinkInvariant db' := by
  unfold log_bulk_inward_master at hok
  split at hok
  · injection hok with hok
    subst hok
    intro v hv
    rcases List.mem_append.mp hv with hold | hnew
    · exact h v hold
    · rcases List.mem_map.mp hnew with ⟨item, _, rfl⟩
      exact vehicleLinkOk_mkInwardVehicle b l d st hst item
  · exact absurd hok (by simp)

/-- A committed inbound batch appends exactly the batch rows. -/
theorem inward_ok_shape (db : DB) (b s l : String) (d : Nat) (r : String)
    (batch : List InwardItem) (st : String) (db' : DB)
    (hok : log_bulk_inward_master db b s l d r batch st = .ok db') :
    db' = { db with
            vehicles := db.vehicles ++ batch.map (mkInwardVehicle b l d st),
            txns := db.txns ++
              (if st == "In Stock" then batch.map (mkInwardTxn b s l d r) else []) } := by
  unfold log_bulk_inward_master at hok
  split at hok
  · injection hok with hok
    exact hok.symm
  · exact absurd hok (by simp)

/-- Receiving a load preserves the link coupling. -/
theorem linkInv_receive (db : DB) (b l : String) (t : Nat) (h : LinkInvariant db) :
    LinkInvariant (receive_load db b l t).2 := by
  unfold receive_load
  split
  · exact h
  · intro v hv
    rcases List.mem_map.mp hv with ⟨x, hx, rfl⟩
    by_cases hm : receiveMatch b l x
    · simp only [hm, if_pos]
      have hst : x.status = "In Transit" := by
        simp only [receiveMatch, Bool.and_eq_true, beq_iff_eq] at hm
        exact hm.2
      constructor
      · intro hne
        rcases (h x hx).1 hne with hA | hS
        · rw [hst] at hA; exact absurd hA (by decide)
        · rw [hst] at hS; exact absurd hS (by decide)
      · intro hA
        exact absurd hA (show ("In Stock" : String) ≠ "Allotted" by decide)
    · simp only [hm, if_neg, Bool.false_eq_true]
      exact h x hx

/-- The transfer loop preserves the link coupling: only location and DC
number change. -/
theorem linkInv_transfer_loop (f t : String) (d : Nat) (r : String) :
    ∀ (cs : List String) (db db' : DB), LinkInvariant db →
      log_bulk_transfer_master db f t d r cs = .ok db' → LinkInvariant db' := by
  intro cs
  induction cs with
  | nil =>
    intro db db' h hok
    rw [log_bulk_transfer_master] at hok
    injection hok with hok
    subst hok
    exact h
  | cons c rest ih =>
    intro db db' h hok
    rw [log_bulk_transfer_master] at hok
    split at hok
    · exact absurd hok (by simp)
    · refine ih _ db' ?_ hok
      intro v hv
      refine updateFirst_pres ?_ h v hv
      intro x hx
      exact h x hx

/-- The manual sub-branch sale loop preserves the (one-way) link coupling:
a vehicle forced to Sold trivially satisfies both directions. -/
theorem linkInv_manual_loop (d : Nat) (r : String) :
    ∀ (cs : List String) (db db' : DB), LinkInvariant db →
      manualSaleLoop db d r cs = .ok db' → LinkInvariant db' := by
  intro cs
  induction cs with
  | nil =>
    intro db db' h hok
    rw [manualSaleLoop] at hok
    injection hok with hok
    subst hok
    exact h
  | cons c rest ih =>
    intro db db' h hok
    rw [manualSaleLoop] at hok
    split at hok
    · exact absurd hok (by simp)
    · split at hok
      · exact absurd hok (by simp)
      · refine ih _ db' ?_ hok
        intro v hv
        refine updateFirst_pres ?_ h v hv
        intro x _
        constructor
        · intro _
          exact Or.inr rfl
        · intro hA
          exact absurd hA (show ("Sold" : String) ≠ "Allotted" by decide)

/-- Completing a PDI preserves the link coupling: the linked vehicle gets
both status Allotted and a sale id in the same write. -/
theorem linkInv_complete (db : DB) (s : Nat) (c : String) (e : Option String) (n : Nat)
    (h : LinkInvariant db) : LinkInvariant (complete_pdi db s c e n).2 := by
  unfold complete_pdi
  split
  · exact h
  · split
    · exact h
    · split
      · split
        · intro v hv
          exact h v hv
        · exact h
      · split
        · exact h
        · intro v hv
          refine updateFirst_pres ?_ h v hv
          intro x _
          constructor
          · intro _
            exact Or.inl rfl
          · intro _
            exact Option.some_ne_none s

/-- The insurance/TR flag update preserves the link coupling: it can only
mark a vehicle that already carries this sale id as Sold. -/
theorem linkInv_flags (db : DB) (s : Nat) (u : FlagUpdates) (h : LinkInvariant db) :
    LinkInvariant (update_insurance_tr_status db s u) := by
  unfold update_insurance_tr_status
  split
  · exact h
  · split
    · intro v hv
      exact h v hv
    · split
      · intro v hv
        refine updateFirst_pres ?_ h v hv
        intro x _
        constructor
        · intro _
          exact Or.inr rfl
        · intro hA
          exact absurd hA (show ("Sold" : String) ≠ "Allotted" by decide)
      · intro v hv
        exact h v hv

/-- One correction step preserves the link coupling: only the location
changes. -/
theorem linkInv_correctStep (cd cut : Nat) (st : CorrectState) (item : CorrItem)
    (h : LinkInvariant st.db) : LinkInvariant (correctStep cd cut st item).db := by
  unfold correctStep
  split
  · exact h
  · split
    · exact h
    · split
      · exact h
      · split
        · exact h
        · split
          · exact h
          · intro v hv
            refine updateFirst_pres ?_ h v hv
            intro x hx
            exact h x hx

/-- The whole correction fold preserves the link coupling. -/
theorem linkInv_correct_fold (cd cut : Nat) :
    ∀ (batch : List CorrItem) (st : CorrectState), LinkInvariant st.db →
      LinkInvariant ((batch.foldl (correctStep cd cut) st).db) := by
  intro batch
  induction batch with
  | nil => intro st h; exact h
  | cons item rest ih =>
    intro st h
    exact ih _ (linkInv_correctStep cd cut st item h)

/-- Every single core operation preserves the link coupling. -/
theorem linkInv_applyOp (db : DB) (op : Op) (h : LinkInvariant db) :
    LinkInvariant (applyOp db op) := by
  cases op with
  | inbound b s l d r batch it =>
    simp only [applyOp]
    cases hok : log_bulk_inward_master db b s l d r batch
        (if it then "In Transit" else "In Stock") with
    | ok db' =>
      refine linkInv_inbound db b s l d r batch _ ?_ h db' hok
      cases it <;> simp
    | error e => exact h
  | receiveLoad b l t => exact linkInv_receive db b l t h
  | transfer f t d r cs =>
    simp only [applyOp]
    cases hok : log_bulk_transfer_master db f t d r cs with
    | ok db' => exact linkInv_transfer_loop f t d r cs db db' h hok
    | error e => exact h
  | completePdi s c e n => exact linkInv_complete db s c e n h
  | assignMechanic s m =>
    simp only [applyOp]
    unfold assign_pdi_mechanic
    split
    · exact h
    · intro v hv
      exact h v hv
  | updateFlags s u => exact linkInv_flags db s u h
  | manualSale cs d r =>
    simp only [applyOp]
    cases hok : log_bulk_manual_sub_branch_sale db cs d r with
    | ok db' =>
      unfold log_bulk_manual_sub_branch_sale at hok
      split at hok
      · exact absurd hok (by simp)
      · exact linkInv_manual_loop d r cs db db' h hok
    | error e => exact h
  | correctStock batch cd cut => exact linkInv_correct_fold cd cut batch _ h
  | newSale i =>
    intro v hv
    exact h v hv

/-! ## Preservation of the fulfillment-status enumeration -/

/-- The transfer loop never touches sales records. -/
theorem transfer_loop_sales (f t : String) (d : Nat) (r : String) :
    ∀ (cs : List String) (db db' : DB),
      log_bulk_transfer_master db f t d r cs = .ok db' → db'.sales = db.sales := by
  intro cs
  induction cs with
  | nil =>
    intro db db' hok
    rw [log_bulk_transfer_master] at hok
    injection hok with hok
    subst hok
    rfl
  | cons c rest ih =>
    intro db db' hok
    rw [log_bulk_transfer_master] at hok
    split at hok
    · exact absurd hok (by simp)
    · exact (ih _ db' hok).trans rfl

/-- The manual-sale loop never touches sales records. -/
theorem manual_loop_sales (d : Nat) (r : String) :
    ∀ (cs : List String) (db db' : DB),
      manualSaleLoop db d r cs = .ok db' → db'.sales = db.sales := by
  intro cs
  induction cs with
  | nil =>
    intro db db' hok
    rw [manualSaleLoop] at hok
    injection hok with hok
    subst hok
    rfl
  | cons c rest ih =>
    intro db db' hok
    rw [manualSaleLoop] at hok
    split at hok
    · exact absurd hok (by simp)
    · split at hok
      · exact absurd hok (by simp)
      · exact (ih _ db' hok).trans rfl

/-- The correction fold never touches sales records. -/
theorem correct_fold_sales (cd cut : Nat) :
    ∀ (batch : List CorrItem) (st : CorrectState),
      ((batch.foldl (correctStep cd cut) st).db).sales = st.db.sales := by
  intro batch
  induction batch with
  | nil => intro st; rfl
  | cons item rest ih =>
    intro st
    rw [List.foldl_cons, ih]
    unfold correctStep
    split
    · rfl
    · split
      · rfl
      · split
        · rfl
        · split
          · rfl
          · split
            · rfl
            · rfl

/-- Every single core operation keeps each fulfillment status inside the
enumerated set. -/
theorem statusEnum_applyOp (db : DB) (op : Op) (h : StatusEnumInvariant db) :
    StatusEnumInvariant (applyOp db op) := by
  cases op with
  | inbound b s l d r batch it =>
    simp only [applyOp]
    cases hok : log_bulk_inward_master db b s l d r batch
        (if it then "In Transit" else "In Stock") with
    | ok db' =>
      have hshape := inward_ok_shape db b s l d r batch _ db' hok
      subst hshape
      intro rec hrec
      exact h rec hrec
    | error e => exact h
  | receiveLoad b l t =>
    simp only [applyOp]
    unfold receive_load
    split
    · exact h
    · intro rec hrec
      exact h rec hrec
  | transfer f t d r cs =>
    simp only [applyOp]
    cases hok : log_bulk_transfer_master db f t d r cs with
    | ok db' =>
      intro rec hrec
      rw [transfer_loop_sales f t d r cs db db' hok] at hrec
      exact h rec hrec
    | error e => exact h
  | completePdi s c e n =>
    simp only [applyOp]
    unfold complete_pdi
    split
    · exact h
    · split
      · exact h
      · split
        · split
          · intro rec hrec
            refine updateFirst_pres ?_ h rec hrec
            intro x _
            simp [fulfillmentStatuses]
          · exact h
        · split
          · exact h
          · intro rec hrec
            refine updateFirst_pres ?_ h rec hrec
            intro x _
            simp [fulfillmentStatuses]
  | assignMechanic s m =>
    simp only [applyOp]
    unfold assign_pdi_mechanic
    split
    · exact h
    · intro rec hrec
      refine updateFirst_pres ?_ h rec hrec
      intro x _
      simp [fulfillmentStatuses]
  | updateFlags s u =>
    simp only [applyOp]
    unfold update_insurance_tr_status
    split
    · exact h
    · split
      · intro rec hrec
        refine updateFirst_pres ?_ h rec hrec
        intro x _
        simp [fulfillmentStatuses]
      · split
        · intro rec hrec
          refine updateFirst_pres ?_ h rec hrec
          intro x _
          simp [fulfillmentStatuses]
        · intro rec hrec
          refine updateFirst_pres ?_ h rec hrec
          intro x hx
          exact h x hx
  | manualSale cs d r =>
    simp only [applyOp]
    cases hok : log_bulk_manual_sub_branch_sale db cs d r with
    | ok db' =>
      unfold log_bulk_manual_sub_branch_sale at hok
      split at hok
      · exact absurd hok (by simp)
      · intro rec hrec
        rw [manual_loop_sales d r cs db db' hok] at hrec
        exact h rec hrec
    | error e => exact h
  | correctStock batch cd cut =>
    intro rec hrec
    rw [show (applyOp db (Op.correctStock batch cd cut)).sales =
        ((batch.foldl (correctStep cd cut)
          { db := db, update_count := 0, skip_count := 0, error_log := [] }).db).sales from rfl,
      correct_fold_sales cd cut batch] at hrec
    exact h rec hrec
  | newSale i =>
    intro rec hrec
    rcases List.mem_append.mp hrec with hold | hnew
    · exact h rec hold
    · rcases List.mem_cons.mp hnew with rfl | hfalse
      · simp [mkSalesRecord, fulfillmentStatuses]
      · exact absurd hfalse (List.not_mem_nil rec)

/-! ## Claim theorems: the fulfillment workflow (C1, C4, C10) -/

/-- C1: when the sale and the vehicle both exist, the vehicle is In Stock,
and its model or variant (case-insensitively) or its color differs from the
sale's requested Model/Variant/Paint_Color, complete_pdi returns failure
with the message listing both the requested and the scanned triples
(`mismatch_message`), and the store — both the SalesRecord and the
VehicleMaster rows — is returned unchanged. -/
theorem complete_pdi_mismatch_rejects (db : DB) (sale_id : Nat) (chassis_no : String)
    (engine_no : Option String) (now : Nat) (record : SalesRecord) (vehicle : VehicleMaster)
    (hrec : db.sales.find? (fun r => r.id == sale_id) = some record)
    (hveh : db.vehicles.find? (fun v => v.chassis_no == chassis_no) = some vehicle)
    (hstock : vehicle.status = "In Stock")
    (hmm : vehicle.model.toUpper ≠ record.Model.toUpper ∨
           vehicle.variant.toUpper ≠ record.Variant.toUpper ∨
           vehicle.color ≠ record.Paint_Color) :
    complete_pdi db sale_id chassis_no engine_no now =
      ((false, mismatch_message record vehicle), db) := by
  unfold complete_pdi
  simp only [hrec, hveh]
  have h1 : ¬ ((vehicle.status != "In Stock") = true) := by
    rw [hstock]
    decide
  rw [if_neg h1]
  have h2 : (vehicle.model.toUpper != record.Model.toUpper
      || vehicle.variant.toUpper != record.Variant.toUpper
      || vehicle.color != record.Paint_Color) = true := by
    rcases hmm with h | h | h <;> simp [h]
  rw [if_pos h2]

/-- C1 witness: a concrete one-sale, one-vehicle store whose vehicle model
M2 differs from the requested M1. -/
def c1Record : SalesRecord :=
  { id := 5, Branch_ID := "B1", Model := "M1", Variant := "V1", Paint_Color := "RED",
    fulfillment_status := "PDI In Progress", engine_no := none, chassis_no := none,
    pdi_assigned_to := some "mech1", pdi_completion_date := none,
    is_insurance_done := false, is_tr_done := false, has_double_tax := false, has_dues := false }

/-- C1 witness vehicle: In Stock, color BLUE against the requested RED. -/
def c1Vehicle : VehicleMaster :=
  { chassis_no := "C1", engine_no := some "E1", load_reference_number := some "L1",
    model := "M1", variant := "V1", color := "BLUE", status := "In Stock",
    date_received := 0, current_branch_id := "B1", sale_id := none, dc_number := none }

/-- C1 witness store. -/
def c1Db : DB := ⟨[c1Vehicle], [c1Record], []⟩

/-- C1 witness: the concrete mismatching call fails and mutates nothing. -/
theorem complete_pdi_mismatch_witness :
    complete_pdi c1Db 5 "C1" none 100 = ((false, mismatch_message c1Record c1Vehicle), c1Db) :=
  complete_pdi_mismatch_rejects c1Db 5 "C1" none 100 c1Record c1Vehicle rfl rfl rfl
    (Or.inr (Or.inr (by decide)))

/-- C4: when the vehicle already carries this sale's id and is Allotted,
complete_pdi succeeds again: the vehicles and transactions tables are
untouched (no duplicate link, no extra side effect) and the only change is
the sale's fulfillment_status re-set to PDI Complete with the fresh
completion timestamp `now`. -/
theorem complete_pdi_idempotent (db : DB) (sale_id : Nat) (chassis_no : String)
    (engine_no : Option String) (now : Nat) (record : SalesRecord) (vehicle : VehicleMaster)
    (hrec : db.sales.find? (fun r => r.id == sale_id) = some record)
    (hveh : db.vehicles.find? (fun v => v.chassis_no == chassis_no) = some vehicle)
    (hlinked : vehicle.sale_id = some sale_id)
    (hA : vehicle.status = "Allotted") :
    complete_pdi db sale_id chassis_no engine_no now =
      ((true, "This vehicle is already allotted to this sale. PDI marked complete."),
       { db with sales := (updateFirst (fun r => r.id == sale_id)
           (fun r => { r with fulfillment_status := "PDI Complete",
                              pdi_completion_date := some now }) db.sales) }) := by
  unfold complete_pdi
  simp only [hrec, hveh]
  have h1 : (vehicle.status != "In Stock") = true := by
    rw [hA]
    decide
  rw [if_pos h1]
  have h2 : (vehicle.sale_id == some sale_id) = true := by
    rw [hlinked]
    simp
  rw [if_pos h2]

/-- C4 witness sale, already PDI Complete from a first call. -/
def c4Record : SalesRecord :=
  { id := 5, Branch_ID := "B1", Model := "M1", Variant := "V1", Paint_Color := "RED",
    fulfillment_status := "PDI Complete", engine_no := some "E1", chassis_no := some "C1",
    pdi_assigned_to := some "mech1", pdi_completion_date := some 50,
    is_insurance_done := false, is_tr_done := false, has_double_tax := false, has_dues := false }

/-- C4 witness vehicle, already linked to sale 5. -/
def c4Vehicle : VehicleMaster :=
  { chassis_no := "C1", engine_no := some "E1", load_reference_number := some "L1",
    model := "M1", variant := "V1", color := "RED", status := "Allotted",
    date_received := 0, current_branch_id := "B1", sale_id := some 5, dc_number := none }

/-- C4 witness store. -/
def c4Db : DB := ⟨[c4Vehicle], [c4Record], []⟩

/-- C4 witness: the concrete retry succeeds, stamps the fresh time 99, and
touches nothing else. -/
theorem complete_pdi_idempotent_witness :
    complete_pdi c4Db 5 "C1" none 99 =
      ((true, "This vehicle is already allotted to this sale. PDI marked complete."),
       { c4Db with sales := (updateFirst (fun r => r.id == 5)
           (fun r => { r with fulfillment_status := "PDI Complete",
                              pdi_completion_date := some 99 }) c4Db.sales) }) :=
  complete_pdi_idempotent c4Db 5 "C1" none 99 c4Record c4Vehicle rfl rfl rfl rfl

/-- C10: after the updates dict is applied, a true is_tr_done forces
fulfillment_status TR Done and leaves every vehicle untouched; only when
is_tr_done is false and is_insurance_done is true does the status become
Insurance Done with the vehicle carrying this sale_id marked Sold — the
Sold transition is triggered by the insurance flag, never the TR flag. -/
theorem update_flags_sold_trigger (db : DB) (sale_id : Nat) (u : FlagUpdates)
    (record0 : SalesRecord)
    (hrec : db.sales.find? (fun r => r.id == sale_id) = some record0) :
    ((applyFlagUpdates record0 u).is_tr_done = true →
      update_insurance_tr_status db sale_id u =
        { db with sales := (updateFirst (fun r => r.id == sale_id)
            (fun r => { applyFlagUpdates r u with fulfillment_status := "TR Done" }) db.sales) })
    ∧ ((applyFlagUpdates record0 u).is_tr_done = false →
        (applyFlagUpdates record0 u).is_insurance_done = true →
        update_insurance_tr_status db sale_id u =
          { db with
              sales := (updateFirst (fun r => r.id == sale_id)
                (fun r => { applyFlagUpdates r u with
                              fulfillment_status := "Insurance Done" }) db.sales),
              vehicles := (updateFirst (fun v => v.sale_id == some sale_id)
                (fun v => { v with status := "Sold" }) db.vehicles) }) := by
  constructor
  · intro htr
    unfold update_insurance_tr_status
    simp only [hrec]
    rw [if_pos htr]
  · intro htr hins
    unfold update_insurance_tr_status
    simp only [hrec]
    rw [if_neg (by simp [htr]), if_pos hins]

/-- C10 witness sale: no flags set yet. -/
def c10Record : SalesRecord :=
  { id := 7, Branch_ID := "B1", Model := "M1", Variant := "V1", Paint_Color := "RED",
    fulfillment_status := "PDI Complete", engine_no := some "E7", chassis_no := some "C7",
    pdi_assigned_to := some "m", pdi_completion_date := some 10,
    is_insurance_done := false, is_tr_done := false, has_double_tax := false, has_dues := false }

/-- C10 witness vehicle, allotted to sale 7. -/
def c10Vehicle : VehicleMaster :=
  { chassis_no := "C7", engine_no := some "E7", load_reference_number := none,
    model := "M1", variant := "V1", color := "RED", status := "Allotted",
    date_received := 0, current_branch_id := "B1", sale_id := some 7, dc_number := none }

/-- C10 witness store. -/
def c10Db : DB := ⟨[c10Vehicle], [c10Record], []⟩

/-- C10 witness update dict: only the insurance flag is set. -/
def c10U : FlagUpdates :=
  { is_insurance_done := some true, is_tr_done := none, has_double_tax := none, has_dues := none }

/-- C10 witness: marking insurance done on sale 7 yields Insurance Done and
marks the allotted vehicle Sold. -/
theorem update_flags_witness :
    update_insurance_tr_status c10Db 7 c10U =
      { c10Db with
          sales := (updateFirst (fun r => r.id == 7)
            (fun r => { applyFlagUpdates r c10U with
                          fulfillment_status := "Insurance Done" }) c10Db.sales),
          vehicles := (updateFirst (fun v => v.sale_id == some 7)
            (fun v => { v with status := "Sold" }) c10Db.vehicles) } :=
  (update_flags_sold_trigger c10Db 7 c10U c10Record rfl).2 rfl rfl

/-! ## Claim theorems: reachable-state invariants (C2, C3) -/

/-- C2 (amended): over every store reachable by sequences of the core
operations from a store satisfying it, the one-way coupling holds: a
vehicle with non-NULL sale_id has status Allotted or Sold, and an Allotted
vehicle has non-NULL sale_id.  (The claimed two-way iff fails: the manual
sub-branch sale marks vehicles Sold without setting sale_id.) -/
theorem link_invariant_reachable (init : DB) (ops : List Op) (h : LinkInvariant init) :
    LinkInvariant (applyOps init ops) := by
  induction ops generalizing init with
  | nil => exact h
  | cons op rest ih => exact ih (applyOp init op) (linkInv_applyOp init op h)

/-- C2 counterexample batch item: one CSV-imported In Stock vehicle. -/
def c2Item : InwardItem :=
  { chassis_no := "C1", engine_no := none, load_reference := none,
    model := "M1", variant := "V1", color := "RED" }

/-- C2 counterexample operations: import C1 In Stock, then sell it through
the manual sub-branch sale. -/
def c2Ops : List Op :=
  [Op.inbound "B1" "CSV-IMPORT" "L1" 0 "Batch" [c2Item] false,
   Op.manualSale ["C1"] 1 "cash"]

/-- C2 counterexample: after a create-inbound followed by a manual
sub-branch sale, the store holds a vehicle with status Sold and sale_id
NULL, so the claimed iff between Allotted-or-Sold and non-NULL sale_id is
violated on a reachable store. -/
theorem sale_link_iff_counterexample : ¬ SaleLinkIff (applyOps dbEmpty c2Ops) := by
  unfold SaleLinkIff
  decide

/-- C2 witness: the amended invariant applied to the same concrete
operation sequence, starting from the empty store. -/
theorem link_invariant_witness : LinkInvariant (applyOps dbEmpty c2Ops) :=
  link_invariant_reachable dbEmpty c2Ops (by intro v hv; exact absurd hv (List.not_mem_nil v))

/-- C3 (amended): over every store reachable by sequences of the workflow
and stock operations from a store satisfying it, each sales record's
fulfillment_status stays inside the enumerated set {PDI Pending, PDI In
Progress, PDI Complete, Insurance Done, TR Done}.  (Forward-only movement
fails: see the counterexample.) -/
theorem fulfillment_status_enum_reachable (init : DB) (ops : List Op)
    (h : StatusEnumInvariant init) : StatusEnumInvariant (applyOps init ops) := by
  induction ops generalizing init with
  | nil => exact h
  | cons op rest ih => exact ih (applyOp init op) (statusEnum_applyOp init op h)

/-- C3 counterexample sale. -/
def c3Sale : NewSaleInfo :=
  { id := 1, Branch_ID := "B1", Model := "M1", Variant := "V1", Paint_Color := "RED" }

/-- C3 counterexample store: a new sale pushed to TR Done by a flag
update. -/
def c3Db : DB :=
  applyOps dbEmpty
    [Op.newSale c3Sale,
     Op.updateFlags 1
       { is_insurance_done := none, is_tr_done := some true,
         has_double_tax := none, has_dues := none }]

/-- C3 counterexample: from TR Done (rank 4), the assign-mechanic workflow
operation — which has no status precondition — resets the record to PDI In
Progress (rank 1): fulfillment_status moves backward. -/
theorem fulfillment_forward_counterexample :
    c3Db.sales.map SalesRecord.fulfillment_status = ["TR Done"]
    ∧ (applyOp c3Db (Op.assignMechanic 1 "mech1")).sales.map SalesRecord.fulfillment_status
        = ["PDI In Progress"]
    ∧ statusRank "PDI In Progress" < statusRank "TR Done" := by decide

/-- C3 witness: the amended enumeration invariant applied to the concrete
backward-moving sequence, starting from the empty store. -/
theorem fulfillment_enum_witness :
    StatusEnumInvariant (applyOps dbEmpty
      [Op.newSale c3Sale,
       Op.updateFlags 1
         { is_insurance_done := none, is_tr_done := some true,
           has_double_tax := none, has_dues := none },
       Op.assignMechanic 1 "mech1"]) :=
  fulfillment_status_enum_reachable dbEmpty _
    (by intro r hr; exact absurd hr (List.not_mem_nil r))

/-! ## Claim theorem: double-entry transfers (C5) -/

/-- A transaction list made of consecutive outward/inward pairs for one
transfer direction: the outward row sits at the source naming the
destination, the inward row sits at the destination naming the source, and
the two rows agree on model, variant, color and carry quantity 1. -/
inductive TransferPairs (from_b to_b : String) : List InventoryTransaction → Prop
  | nil : TransferPairs from_b to_b []
  | cons (t_out t_in : InventoryTransaction) (rest : List InventoryTransaction) :
      t_out.Transaction_Type = TransactionType.OUTWARD_TRANSFER →
      t_out.Current_Branch_ID = from_b →
      t_out.To_Branch_ID = some to_b →
      t_in.Transaction_Type = TransactionType.INWARD_TRANSFER →
      t_in.Current_Branch_ID = to_b →
      t_in.From_Branch_ID = some from_b →
      t_out.Model = t_in.Model →
      t_out.Variant = t_in.Variant →
      t_out.Color = t_in.Color →
      t_out.Quantity = 1 →
      t_in.Quantity = 1 →
      TransferPairs from_b to_b rest →
      TransferPairs from_b to_b (t_out :: t_in :: rest)

/-- A vehicle property preserved by the per-chassis update survives the
whole transfer loop. -/
theorem transfer_loop_exists (from_b to_b : String) (d : Nat) (rem : String)
    (Q : VehicleMaster → Prop)
    (hQ : ∀ x, Q x → Q { x with current_branch_id := to_b, dc_number := some rem }) :
    ∀ (cs : List String) (db db' : DB),
      log_bulk_transfer_master db from_b to_b d rem cs = .ok db' →
      (∃ v ∈ db.vehicles, Q v) → ∃ v ∈ db'.vehicles, Q v := by
  intro cs
  induction cs with
  | nil =>
    intro db db' hok hex
    rw [log_bulk_transfer_master] at hok
    injection hok with hok
    subst hok
    exact hex
  | cons c rest ih =>
    intro db db' hok hex
    rw [log_bulk_transfer_master] at hok
    split at hok
    · exact absurd hok (by simp)
    · exact ih _ db' hok (exists_updateFirst hQ hex)

/-- C5: a committed transfer batch appends exactly one outward/inward pair
per chassis — two ledger rows per event, agreeing on model, variant, color
and quantity 1, the outward row at the source naming the destination and
the inward row at the destination naming the source — touches no sales
record, and leaves every transferred vehicle In Stock at the destination
branch. -/
theorem transfer_double_entry (db : DB) (from_b to_b : String) (d : Nat) (rem : String)
    (cs : List String) (db' : DB)
    (h : log_bulk_transfer_master db from_b to_b d rem cs = .ok db') :
    (∃ ts, db'.txns = db.txns ++ ts ∧ ts.length = 2 * cs.length ∧ TransferPairs from_b to_b ts)
    ∧ db'.sales = db.sales
    ∧ ∀ c ∈ cs, ∃ v ∈ db'.vehicles,
        v.chassis_no = c ∧ v.current_branch_id = to_b ∧ v.status = "In Stock" := by
  induction cs generalizing db with
  | nil =>
    rw [log_bulk_transfer_master] at h
    injection h with h
    subst h
    refine ⟨⟨[], by simp, rfl, .nil⟩, rfl, ?_⟩
    intro c hc
    exact absurd hc (List.not_mem_nil c)
  | cons c rest ih =>
    rw [log_bulk_transfer_master] at h
    split at h
    · exact absurd h (by simp)
    · next vehicle hfind =>
      obtain ⟨⟨ts, hts, hlen, hpairs⟩, hsales, hveh⟩ := ih _ h
      refine ⟨⟨transferOutTxn from_b to_b d rem vehicle ::
               transferInTxn from_b to_b d rem vehicle :: ts, ?_, ?_, ?_⟩, ?_, ?_⟩
      · rw [hts]
        simp
      · simp only [List.length_cons, hlen, List.length_cons]
        omega
      · exact .cons _ _ _ rfl rfl rfl rfl rfl rfl rfl rfl rfl rfl rfl hpairs
      · exact hsales.trans rfl
      · intro c' hc'
        rcases List.mem_cons.mp hc' with rfl | hrest
        · refine transfer_loop_exists from_b to_b d rem
            (fun v => v.chassis_no = c' ∧ v.current_branch_id = to_b ∧ v.status = "In Stock")
            (fun x hx => ⟨hx.1, rfl, hx.2.2⟩) rest _ db' h ?_
          have hmem := @mem_updateFirst_of_find VehicleMaster (transferMatch from_b c')
            (fun v => { v with current_branch_id := to_b, dc_number := some rem })
            db.vehicles vehicle hfind
          have hprops := List.find?_some hfind
          simp only [transferMatch, Bool.and_eq_true, beq_iff_eq] at hprops
          exact ⟨_, hmem, hprops.1.1, rfl, hprops.2⟩
        · exact hveh c' hrest

/-- C5 witness vehicle: In Stock at B1. -/
def c5Vehicle : VehicleMaster :=
  { chassis_no := "C5A", engine_no := none, load_reference_number := some "L5",
    model := "M1", variant := "V1", color := "RED", status := "In Stock",
    date_received := 0, current_branch_id := "B1", sale_id := none, dc_number := none }

/-- C5 witness store. -/
def c5Db : DB := ⟨[c5Vehicle], [], []⟩

/-- C5 witness result store: the committed transfer B1 to B2. -/
def c5Db2 : DB := applyOp c5Db (Op.transfer "B1" "B2" 5 "DC9" ["C5A"])

/-- C5 witness: the concrete one-chassis transfer leaves the vehicle In
Stock at B2. -/
theorem transfer_double_entry_witness :
    ∃ v ∈ c5Db2.vehicles,
      v.chassis_no = "C5A" ∧ v.current_branch_id = "B2" ∧ v.status = "In Stock" :=
  (transfer_double_entry c5Db "B1" "B2" 5 "DC9" ["C5A"] c5Db2 (by rfl)).2.2 "C5A" (by decide)

/-! ## Claim theorem: duplicate-chassis atomicity on inbound (C6) -/

/-- C6: if any item of a create-inbound batch carries a chassis already in
VehicleMaster, the whole batch fails with the uniqueness violation — the
`Except.error` result meaning the transaction rolled back with no row of
the batch persisted — and every committed batch leaves the chassis column
globally duplicate-free while appending exactly the batch rows. -/
theorem inbound_duplicate_atomic (db : DB) (b src load : String) (d : Nat) (rem : String)
    (batch : List InwardItem) (st : String) :
    ((∃ item ∈ batch, ∃ v ∈ db.vehicles, v.chassis_no = item.chassis_no) →
      log_bulk_inward_master db b src load d rem batch st =
        .error "IntegrityError: UNIQUE constraint failed: vehicle_master.chassis_no")
    ∧ (∀ db', log_bulk_inward_master db b src load d rem batch st = .ok db' →
        (db'.vehicles.map VehicleMaster.chassis_no).Nodup ∧
        db'.vehicles = db.vehicles ++ batch.map (mkInwardVehicle b load d st)) := by
  constructor
  · rintro ⟨item, hitem, v, hv, heq⟩
    have hdup : ¬ (((db.vehicles ++ batch.map (mkInwardVehicle b load d st)).map
        VehicleMaster.chassis_no).Nodup) := by
      intro hnodup
      rw [List.map_append] at hnodup
      rcases List.nodup_append.mp hnodup with ⟨_, _, hdisj⟩
      refine hdisj (List.mem_map_of_mem _ hv) ?_
      rw [heq]
      exact List.mem_map.mpr ⟨mkInwardVehicle b load d st item, List.mem_map_of_mem _ hitem, rfl⟩
    unfold log_bulk_inward_master
    rw [if_neg hdup]
  · intro db' hok
    unfold log_bulk_inward_master at hok
    split at hok
    · next hnodup =>
      injection hok with hok
      subst hok
      exact ⟨hnodup, rfl⟩
    · exact absurd hok (by simp)

/-- C6 witness vehicle, already persisted with chassis C6A. -/
def c6Vehicle : VehicleMaster :=
  { chassis_no := "C6A", engine_no := none, load_reference_number := some "L6",
    model := "M1", variant := "V1", color := "RED", status := "In Stock",
    date_received := 0, current_branch_id := "B1", sale_id := none, dc_number := none }

/-- C6 witness batch item re-using chassis C6A. -/
def c6Item : InwardItem :=
  { chassis_no := "C6A", engine_no := none, load_reference := none,
    model := "M2", variant := "V2", color := "BLUE" }

/-- C6 witness store. -/
def c6Db : DB := ⟨[c6Vehicle], [], []⟩

/-- C6 witness: importing a batch whose item repeats chassis C6A fails the
whole batch with the uniqueness error. -/
theorem inbound_duplicate_witness :
    log_bulk_inward_master c6Db "B1" "HMSI" "L7" 3 "rem" [c6Item] "In Stock" =
      .error "IntegrityError: UNIQUE constraint failed: vehicle_master.chassis_no" :=
  (inbound_duplicate_atomic c6Db "B1" "HMSI" "L7" 3 "rem" [c6Item] "In Stock").1
    ⟨c6Item, by decide, c6Vehicle, by decide, rfl⟩

/-! ## Claim theorem: receive-load round trip (C7) -/

/-- C7: an In Transit inbound commit emits no ledger transaction, and
receive_load either fails with the not-found message leaving the store
untouched (when no In Transit vehicle of that load sits at that branch) or
succeeds, moving every matching vehicle to In Stock with date_received
overwritten by the receipt day, keeping every other vehicle as it was, and
appending exactly one inward HMSI transaction per received vehicle, dated
that day with quantity 1, without touching sales. -/
theorem receive_load_round_trip (db : DB) (branch src load : String) (d today : Nat)
    (rem : String) (batch : List InwardItem) :
    (∀ db1, log_bulk_inward_master db branch src load d rem batch "In Transit" = .ok db1 →
      db1.txns = db.txns)
    ∧ (db.vehicles.filter (receiveMatch branch load) = [] →
        receive_load db branch load today =
          ((false, "No 'In Transit' vehicles found for this Load ID."), db))
    ∧ (db.vehicles.filter (receiveMatch branch load) ≠ [] →
        (receive_load db branch load today).1.1 = true
        ∧ (∀ v ∈ db.vehicles, receiveMatch branch load v = true →
            ({ v with status := "In Stock", date_received := today } : VehicleMaster) ∈
              ((receive_load db branch load today).2).vehicles)
        ∧ (∀ v ∈ db.vehicles, receiveMatch branch load v = false →
            v ∈ ((receive_load db branch load today).2).vehicles)
        ∧ ((receive_load db branch load today).2).txns =
            db.txns ++ (db.vehicles.filter (receiveMatch branch load)).map
              (receiveTxn branch load today)
        ∧ ((receive_load db branch load today).2).sales = db.sales
        ∧ ∀ t ∈ (db.vehicles.filter (receiveMatch branch load)).map
            (receiveTxn branch load today),
            t.Transaction_Type = TransactionType.INWARD_OEM ∧ t.Date = today
              ∧ t.Quantity = 1) := by
  refine ⟨?_, ?_, ?_⟩
  · intro db1 hok
    have hshape := inward_ok_shape db branch src load d rem batch "In Transit" db1 hok
    subst hshape
    have hne : (("In Transit" : String) == "In Stock") = false := by decide
    simp [hne]
  · intro hempty
    unfold receive_load
    simp [hempty]
  · intro hne
    have hfalse : ((db.vehicles.filter (receiveMatch branch load)).isEmpty) = false := by
      rcases hl : db.vehicles.filter (receiveMatch branch load) with _ | ⟨a, as⟩
      · exact absurd hl hne
      · rfl
    have hcond : ¬ ((db.vehicles.filter (receiveMatch branch load)).isEmpty = true) := by
      rw [hfalse]
      simp
    unfold receive_load
    rw [if_neg hcond]
    refine ⟨rfl, ?_, ?_, rfl, rfl, ?_⟩
    · intro v hv hm
      exact List.mem_map.mpr ⟨v, hv, by rw [if_pos hm]⟩
    · intro v hv hm
      exact List.mem_map.mpr ⟨v, hv, by rw [if_neg (by simp [hm])]⟩
    · intro t ht
      rcases List.mem_map.mp ht with ⟨v, _, rfl⟩
      exact ⟨rfl, rfl, rfl⟩

/-- C7 witness batch item, arriving under load L7. -/
def c7Item : InwardItem :=
  { chassis_no := "C7A", engine_no := some "E7A", load_reference := some "L7",
    model := "M1", variant := "V1", color := "RED" }

/-- C7 witness store: the committed In Transit inbound of that item into
the empty store. -/
def c7Db : DB := applyOp dbEmpty (Op.inbound "B1" "Auto-Import" "MULTI" 10 "Batch Import" [c7Item] true)

/-- C7 witness: the In Transit creation emitted no transaction, and the
subsequent receive of load L7 at B1 succeeds. -/
theorem receive_load_witness :
    c7Db.txns = dbEmpty.txns ∧ (receive_load c7Db "B1" "L7" 42).1.1 = true :=
  ⟨(receive_load_round_trip dbEmpty "B1" "Auto-Import" "MULTI" 10 42 "Batch Import" [c7Item]).1
      c7Db (by rfl),
   ((receive_load_round_trip c7Db "B1" "x" "L7" 0 42 "r" []).2.2 (by decide)).1⟩

/-! ## Claim theorem: S08 feed line decoding (C8) -/

/-- C8: the decoder produces a record for a raw line exactly when the line
is at least 180 characters long and carries the marker B at offset 25; the
record's load reference, chassis and engine fields are the
whitespace-trimmed slices 84:97, 113:130 and 173:186, its model/variant are
the trimmed slices 27:38 and 38:45 whenever the product-mapping lookup
misses (raw-code fallback), and its color is the trimmed slice 45:60
whenever no color map is given or the color lookup misses. -/
theorem s08_line_decode_iff (source_name : String)
    (dm : List ((String × String) × (String × String)))
    (cm : Option (List (String × String))) (line : List Char) :
    ((parse_s08_line source_name dm cm line).isSome ↔
      (180 ≤ line.length ∧ line.get? 25 = some 'B'))
    ∧ ∀ r, parse_s08_line source_name dm cm line = some r →
        r.source_account = source_name
        ∧ r.load_reference = sliceStrip line 84 97
        ∧ r.chassis_no = sliceStrip line 113 130
        ∧ r.engine_no = sliceStrip line 173 186
        ∧ (dm.lookup (sliceStrip line 27 38, sliceStrip line 38 45) = none →
            r.model = sliceStrip line 27 38 ∧ r.variant = sliceStrip line 38 45)
        ∧ ((cm = none ∨ ∃ m, cm = some m ∧ m.lookup (sliceStrip line 45 60) = none) →
            r.color = sliceStrip line 45 60) := by
  by_cases h1 : line.length < 180
  · constructor
    · rw [parse_s08_line.eq_def, if_pos h1]
      simp only [Option.isSome_none, Bool.false_eq_true, false_iff]
      rintro ⟨hlen, _⟩
      omega
    · intro r hr
      rw [parse_s08_line.eq_def, if_pos h1] at hr
      exact absurd hr (by simp)
  · by_cases h2 : line.get? 25 = some 'B'
    · have hne : ¬ ((line.get? 25 != some 'B') = true) := by
        simp only [bne_iff_ne]
        exact not_not_intro h2
      constructor
      · rw [parse_s08_line.eq_def, if_neg h1, if_neg hne]
        simp only [Option.isSome_some, true_iff]
        exact ⟨Nat.le_of_not_lt h1, h2⟩
      · intro r hr
        rw [parse_s08_line.eq_def, if_neg h1, if_neg hne] at hr
        injection hr with hr
        subst hr
        refine ⟨rfl, rfl, rfl, rfl, ?_, ?_⟩
        · intro hmiss
          constructor
          · show ((dm.lookup (sliceStrip line 27 38, sliceStrip line 38 45)).getD
              (sliceStrip line 27 38, sliceStrip line 38 45)).1 = sliceStrip line 27 38
            rw [hmiss]
            rfl
          · show ((dm.lookup (sliceStrip line 27 38, sliceStrip line 38 45)).getD
              (sliceStrip line 27 38, sliceStrip line 38 45)).2 = sliceStrip line 38 45
            rw [hmiss]
            rfl
        · rintro (rfl | ⟨m, rfl, hmiss⟩)
          · rfl
          · show (m.lookup (sliceStrip line 45 60)).getD (sliceStrip line 45 60) =
              sliceStrip line 45 60
            rw [hmiss]
            rfl
    · have hB : (line.get? 25 != some 'B') = true := by
        simp only [bne_iff_ne]
        exact h2
      constructor
      · rw [parse_s08_line.eq_def, if_neg h1, if_pos hB]
        simp only [Option.isSome_none, Bool.false_eq_true, false_iff]
        rintro ⟨_, hc⟩
        exact h2 hc
      · intro r hr
        rw [parse_s08_line.eq_def, if_neg h1, if_pos hB] at hr
        exact absurd hr (by simp)

/-- C8 witness line: 180 characters, B at offset 25, every field region
blank. -/
def blankLineB : List Char := List.replicate 25 ' ' ++ 'B' :: List.replicate 154 ' '

/-- C8 witness line of length exactly 179. -/
def line179 : List Char := List.replicate 179 'X'

/-- C8 witness line of length 180 without the marker at offset 25. -/
def line180X : List Char := List.replicate 180 'X'

set_option maxRecDepth 8192 in
/-- C8 witness: the blank marker line decodes to the all-empty record, the
179-character line is skipped, and the unmarked 180-character line is
skipped. -/
theorem s08_decode_witness :
    (parse_s08_line "acct" [] none blankLineB).isSome = true
    ∧ ¬ ((parse_s08_line "acct" [] none line179).isSome = true)
    ∧ ¬ ((parse_s08_line "acct" [] none line180X).isSome = true)
    ∧ parse_s08_line "acct" [] none blankLineB =
        some { source_account := "acct", load_reference := "", chassis_no := "",
               engine_no := "", color := "", model := "", variant := "" } := by
  refine ⟨?_, ?_, ?_, by decide⟩
  · exact (s08_line_decode_iff "acct" [] none blankLineB).1.mpr ⟨by decide, by decide⟩
  · intro h
    have hlen := ((s08_line_decode_iff "acct" [] none line179).1.mp h).1
    revert hlen
    decide
  · intro h
    have hB := ((s08_line_decode_iff "acct" [] none line180X).1.mp h).2
    revert hB
    decide

/-! ## Claim theorem: best-effort bulk stock correction (C9) -/

/-- Each correction row contributes exactly one outcome: either the applied
counter or one log entry. -/
theorem correctStep_count (cd cut : Nat) (st : CorrectState) (item : CorrItem) :
    (correctStep cd cut st item).update_count +
      ((correctStep cd cut st item).error_log).length
      = st.update_count + st.error_log.length + 1 := by
  unfold correctStep
  split
  · simp only [List.length_append, List.length_cons, List.length_nil]
    omega
  · split
    · simp only [List.length_append, List.length_cons, List.length_nil]
      omega
    · split
      · simp only [List.length_append, List.length_cons, List.length_nil]
        omega
      · split
        · simp only [List.length_append, List.length_cons, List.length_nil]
          omega
        · split
          · simp only [List.length_append, List.length_cons, List.length_nil]
            omega
          · simp only []
            omega

/-- Summed over a fold, each row contributes exactly one outcome. -/
theorem correct_fold_count (cd cut : Nat) :
    ∀ (batch : List CorrItem) (st : CorrectState),
      (batch.foldl (correctStep cd cut) st).update_count +
        ((batch.foldl (correctStep cd cut) st).error_log).length
        = st.update_count + st.error_log.length + batch.length := by
  intro batch
  induction batch with
  | nil => intro st; simp
  | cons item rest ih =>
    intro st
    rw [List.foldl_cons, ih, correctStep_count]
    simp only [List.length_cons]
    omega

/-- C9: bulk_correct_stock always reports success; every row of the batch
is processed (the applied count plus the logged reasons add up to the batch
length, so a skipped row never aborts the remaining rows); a row whose
chassis is unknown, or whose vehicle has an inward/outward transfer dated
on or after the cutoff matching its current model, variant and branch, or
whose vehicle is Sold or Allotted, leaves the store untouched and only logs
a reason (incrementing the skip counter in the transfer case); and an
applied row rewrites the vehicle's location and appends one STOCK
CORRECTION transaction whose From_Branch_ID records the prior branch. -/
theorem bulk_correct_stock_spec (db : DB) (batch : List CorrItem) (cd cut : Nat) :
    ((bulk_correct_stock db batch cd cut).1.ok = true)
    ∧ ((bulk_correct_stock db batch cd cut).1.update_count +
        ((bulk_correct_stock db batch cd cut).1.error_log).length = batch.length)
    ∧ (∀ (st : CorrectState) (item : CorrItem) (c : String) (vehicle : VehicleMaster),
        item.chassis_no = some c → c.isEmpty = false →
        st.db.vehicles.find? (fun v => v.chassis_no == c) = some vehicle →
          (∀ t, st.db.txns.find? (recentTransferMatch cut vehicle) = some t →
            correctStep cd cut st item =
              { st with skip_count := st.skip_count + 1,
                        error_log := st.error_log ++
                          ["Skipped Chassis " ++ c ++ ": Found recent transfer (" ++
                            t.Transaction_Type ++ ") on " ++ toString t.Date ++ "."] })
          ∧ (st.db.txns.find? (recentTransferMatch cut vehicle) = none →
              ((vehicle.status = "Sold" ∨ vehicle.status = "Allotted") →
                correctStep cd cut st item =
                  { st with error_log := st.error_log ++
                      ["Skipped Chassis " ++ c ++ ": Status is \x27" ++ vehicle.status ++
                        "\x27. Correction not allowed."] })
              ∧ (vehicle.status ≠ "Sold" → vehicle.status ≠ "Allotted" →
                  correctStep cd cut st item =
                    { db := { st.db with
                        vehicles := (updateFirst (fun v => v.chassis_no == c)
                          (fun v => { v with current_branch_id :=
                            item.current_branch_id.getD vehicle.current_branch_id }) st.db.vehicles),
                        txns := st.db.txns ++
                          [correctionTxn cd (item.current_branch_id.getD vehicle.current_branch_id)
                            vehicle.current_branch_id vehicle] }
                      update_count := st.update_count + 1
                      skip_count := st.skip_count
                      error_log := st.error_log })))
    ∧ (∀ (st : CorrectState) (item : CorrItem) (c : String),
        item.chassis_no = some c → c.isEmpty = false →
        st.db.vehicles.find? (fun v => v.chassis_no == c) = none →
        correctStep cd cut st item =
          { st with error_log := st.error_log ++
              ["Error: Chassis " ++ c ++ " not found in VehicleMaster."] }) := by
  refine ⟨rfl, ?_, ?_, ?_⟩
  · have hc := correct_fold_count cd cut batch
      { db := db, update_count := 0, skip_count := 0, error_log := [] }
    simpa using hc
  · intro st item c vehicle hc hemp hfind
    refine ⟨?_, ?_⟩
    · intro t ht
      unfold correctStep
      simp [hc, hemp, hfind, ht]
    · intro hnone
      refine ⟨?_, ?_⟩
      · intro hsold
        unfold correctStep
        rcases hsold with h | h <;> simp [hc, hemp, hfind, hnone, h]
      · intro hs ha
        unfold correctStep
        simp [hc, hemp, hfind, hnone, hs, ha]
  · intro st item c hc hemp hfind
    unfold correctStep
    simp [hc, hemp, hfind]

/-- C9 witness vehicle: In Stock at B1. -/
def c9Vehicle : VehicleMaster :=
  { chassis_no := "C9A", engine_no := none, load_reference_number := some "L9",
    model := "M1", variant := "V1", color := "RED", status := "In Stock",
    date_received := 0, current_branch_id := "B1", sale_id := none, dc_number := none }

/-- C9 witness state: a fresh correction loop over a one-vehicle store. -/
def c9St : CorrectState :=
  { db := ⟨[c9Vehicle], [], []⟩, update_count := 0, skip_count := 0, error_log := [] }

/-- C9 witness row: move C9A to branch B2. -/
def c9Item : CorrItem := { chassis_no := some "C9A", current_branch_id := some "B2" }

/-- C9 witness: the applied row updates the location and logs one STOCK
CORRECTION transaction carrying the prior branch B1. -/
theorem bulk_correct_stock_witness :
    correctStep 9 5 c9St c9Item =
      { db := { c9St.db with
          vehicles := (updateFirst (fun v => v.chassis_no == "C9A")
            (fun v => { v with current_branch_id :=
              c9Item.current_branch_id.getD c9Vehicle.current_branch_id }) c9St.db.vehicles),
          txns := c9St.db.txns ++
            [correctionTxn 9 (c9Item.current_branch_id.getD c9Vehicle.current_branch_id)
              c9Vehicle.current_branch_id c9Vehicle] }
        update_count := c9St.update_count + 1
        skip_count := c9St.skip_count
        error_log := c9St.error_log } :=
  (((bulk_correct_stock_spec c9St.db [c9Item] 9 5).2.2.1 c9St c9Item "C9A" c9Vehicle
      rfl rfl rfl).2 rfl).2 (by decide) (by decide)

end VTS
